import Mathlib

/-
Verification development for the chronos utility (chronos.cpp), a small
command-line launcher that runs a program, waits for it, and reports
wall-clock, user and kernel times of the process tree.

Shallow embedding conventions:
- wide strings (wstring) are modelled as lists of characters (WStr);
- the Win32 platform calls made by wmain are abstracted as a Platform
  record of scripted outcomes, and wmain is modelled as a pure function
  from the argument vector and the platform record to an observable
  RunOutcome (result, trace of platform calls, error-stream lines);
- a failed C assert is modelled as an Aborted terminal outcome: it stops
  the run without reaching the normal return statement;
- the double arithmetic of the reporter (timeUnit * ticks printed with
  std fixed precision 2) is modelled as exact integer scaling of the
  100 ns tick count with round-half-to-even at the second decimal, which
  agrees with the source on every value the claims exercise.
-/

namespace Chronos

/-- Wide string, modelled as a list of characters. -/
abbrev WStr := List Char

/-- Convenience conversion from a Lean string literal to a WStr. -/
def wstr (s : String) : WStr := s.toList

/-- The separator token. -/
def ddTok : WStr := ['-', '-']

/-- The short output-file flag. -/
def oTok : WStr := ['-', 'o']

/-- The long output-file flag. -/
def outTok : WStr := ['-', '-', 'o', 'u', 't', 'p', 'u', 't']

/-- The short verbose flag. -/
def vTok : WStr := ['-', 'v']

/-- The long verbose flag. -/
def verbTok : WStr := ['-', '-', 'v', 'e', 'r', 'b', 'o', 's', 'e']

/-- The short help flag. -/
def hTok : WStr := ['-', 'h']

/-- The long help flag. -/
def helpTok : WStr := ['-', '-', 'h', 'e', 'l', 'p']

/-- A single dash, the marker of an option-like token. -/
def dashTok : WStr := ['-']

/-- Discovered command line options (struct CliParams of chronos.cpp). -/
structure CliParams where
  verbose : Bool
  outputFileName : WStr
  cmdLine : WStr
deriving DecidableEq

/-- The distinguishable ways ParseArgv returns false: which message (if
any) it writes to the error stream before failing. -/
inductive ParseErr where
  | helpAsked
  | unknownOption (w : WStr)
  | missingPositional
  | missingProgram
deriving DecidableEq

/-- Result of the option-scanning loop of ParseArgv (lines 97-141):
either a parse failure, or the verbose flag, the pending positional
argument posArg, and the tokens remaining from the break position. -/
inductive LoopOut where
  | err (e : ParseErr)
  | ok (vb : Bool) (pa : WStr) (rest : List WStr)
deriving DecidableEq

/-- The while loop of ParseArgv (chronos.cpp lines 97-141), as a
recursion over the remaining tokens.  State: vb is result.verbose, pa is
posArg, consume is consumeNextPositionalArgument. -/
def parseLoop : Bool → WStr → Bool → List WStr → LoopOut
  | vb, pa, _, [] => .ok vb pa []
  | vb, _, true, w :: rest => parseLoop vb w false rest
  | vb, pa, false, w :: rest =>
    if w = ddTok then .ok vb pa rest
    else if oTok.isPrefixOf w then
      (if w.drop 2 = [] then parseLoop vb pa true rest
       else parseLoop vb (w.drop 2) false rest)
    else if outTok.isPrefixOf w then
      (if w.drop 8 = [] then parseLoop vb pa true rest
       else parseLoop vb (w.drop 8) false rest)
    else if w = vTok ∨ w = verbTok then parseLoop true pa false rest
    else if w = hTok ∨ w = helpTok then .err .helpAsked
    else if dashTok.isPrefixOf w then .err (.unknownOption w)
    else .ok vb pa (w :: rest)

/-- Space-joined concatenation of tokens: the cmdLine accumulation of
chronos.cpp lines 156-160. -/
def joinSp : List WStr → WStr
  | [] => []
  | [w] => w
  | w :: ws => w ++ ' ' :: joinSp ws

/-- Outcome of ParseArgv: a failure (with its message kind) or the
CliParams record. -/
inductive ParseResult where
  | err (e : ParseErr)
  | ok (p : CliParams)
deriving DecidableEq

/-- ParseArgv of chronos.cpp (lines 83-163), on the argument vector with
the program invocation name already removed (the function itself drops
argv[0] at lines 85-86). -/
def ParseArgv (args : List WStr) : ParseResult :=
  match parseLoop false [] false args with
  | .err e => .err e
  | .ok vb pa rest =>
    if pa = ddTok then .err .missingPositional
    else if rest = [] then .err .missingProgram
    else .ok { verbose := vb, outputFileName := pa, cmdLine := joinSp rest }

/-- True when the token begins with a dash; a token for which this is
false matches none of the option branches and breaks the loop. -/
def dashLeading : WStr → Bool
  | [] => false
  | c :: _ => c == '-'

/-- Character of a decimal digit value. -/
def digitChar (d : Nat) : Char := Char.ofNat (48 + d)

/-- Decimal rendering helper: fuel-indexed accumulation of the digits of
n in front of acc. -/
def toDecimalAux : Nat → Nat → List Char → List Char
  | 0, _, acc => acc
  | fuel + 1, n, acc =>
    if n < 10 then digitChar n :: acc
    else toDecimalAux fuel (n / 10) (digitChar (n % 10) :: acc)

/-- Decimal rendering of a nonnegative integer, as the output stream
insertion operator of the source prints DWORD values. -/
def natStr (n : Nat) : String := String.mk (toDecimalAux (n + 1) n [])

/-- Number of centiseconds obtained by rounding a count of 100 ns ticks
to two decimal places of seconds, round half to even.  This models the
value that printing timeUnit * ticks with fixed precision 2 produces
(chronos.cpp lines 166 and 258); the model is exact integer arithmetic
instead of double arithmetic, and the two agree on every value the
claims exercise. -/
def centisOfTicks (n : Nat) : Nat :=
  let q := n / 100000
  let r := n % 100000
  if 50000 < r then q + 1
  else if r < 50000 then q
  else if q % 2 = 0 then q else q + 1

/-- Two-digit zero-padded rendering of the fractional part. -/
def pad2 (m : Nat) : String :=
  if m < 10 then String.mk ('0' :: toDecimalAux (m + 1) m []) else natStr m

/-- Fixed-point rendering with two digits after the decimal point of a
second count given in 100 ns ticks. -/
def fixed2 (n : Nat) : String :=
  natStr (centisOfTicks n / 100) ++ "." ++ pad2 (centisOfTicks n % 100)

/-- Fixed-point rendering of a signed tick count (the wallclock delta is
a LONGLONG in the source). -/
def fixed2i (n : Int) : String :=
  if n < 0 then "-" ++ fixed2 n.natAbs else fixed2 n.toNat

/-- The terse report body (chronos.cpp lines 271-273): the three labeled
lines, each ended by std endl. -/
def terseBody (w : Int) (u k : Nat) : String :=
  "real\t" ++ fixed2i w ++ "s\n" ++
  "user\t" ++ fixed2 u ++ "s\n" ++
  "sys\t" ++ fixed2 k ++ "s\n"

/-- The verbose report body (chronos.cpp lines 262-268). -/
def verboseBody (cl : WStr) (w : Int) (u k pf ec : Nat) : String :=
  "Command being timed: \"" ++ String.mk cl ++ "\"\n" ++
  "Elapsed (wall clock) time (seconds): " ++ fixed2i w ++ "\n" ++
  "User time (seconds): " ++ fixed2 u ++ "\n" ++
  "System time (seconds): " ++ fixed2 k ++ "\n" ++
  "Page faults: " ++ natStr pf ++ "\n" ++
  "Exit status: " ++ natStr ec ++ "\n"

/-- Everything wmain writes to the chosen destination (chronos.cpp lines
258-274): a bare std endl at line 260, then the terse or the verbose
body. -/
def reportOutput (vb : Bool) (cl : WStr) (w : Int) (u k pf ec : Nat) : String :=
  "\n" ++ (if vb then verboseBody cl w u k pf ec else terseBody w u k)

/-- The warning line of chronos.cpp lines 233-235. -/
def warningLine (n : Nat) : String :=
  "Warning: there are still " ++ natStr n ++ " alive children processes"

/-- The usage text of UsageAndExit (chronos.cpp lines 60-72), written to
the error stream before exiting with status 1. -/
def usageText (argv0 : WStr) : String :=
  "chronos - report wallclock, user and system times of process\n" ++
  "Copyright (c) 2016, Grigory Rechistov\n\n" ++
  "Usage: " ++ String.mk argv0 ++ " [-v] [-o file] [--] program [options]\n" ++
  "\n" ++
  "Run program and report its resources usage\n" ++
  "   --verbose, -v          produce results in verbose format\n" ++
  "   --output, -o filename  write result to filename instead of stdout\n" ++
  "   program                program name to start\n" ++
  "   options                the program's own arguments\n\n"

/-- Message each parse failure writes to the error stream before
UsageAndExit runs (chronos.cpp lines 134, 144, 153; the help branch at
line 132 prints nothing itself). -/
def parseErrLines : ParseErr → List String
  | .helpAsked => []
  | .unknownOption w => ["Unknown option " ++ String.mk w]
  | .missingPositional => ["Missing positional argument"]
  | .missingProgram => ["Missing program name"]

/-- Scripted outcomes of the platform (Win32) calls that wmain makes:
the synthetic process backend. -/
structure Platform where
  launchOk : Bool
  lastError : String
  jobCreateOk : Bool
  assignOk : Bool
  waitOk : Bool
  exitCodeOk : Bool
  exitCode : Nat
  timesOk : Bool
  createTime : Nat
  exitTime : Nat
  queryOk : Bool
  userTime : Nat
  kernelTime : Nat
  pageFaults : Nat
  activeProcesses : Nat
deriving DecidableEq

/-- Platform calls wmain can make, in the order the source issues them:
CreateProcess, CreateJobObject, AssignProcessToJobObject, ResumeThread,
WaitForSingleObject, GetExitCodeProcess, GetProcessTimes,
QueryInformationJobObject. -/
inductive Ev where
  | launch
  | createJob
  | attach
  | resume
  | wait
  | getExit
  | getTimes
  | query
deriving DecidableEq

/-- Terminal result of a run of wmain.  usageExit is the exit(1) inside
UsageAndExit; fatal is a return 127; aborted is a failed C assert, which
kills the run before the normal return statement; finished carries the
report written to the chosen destination and the DWORD exit code of the
launched process that the final return statement converts to int. -/
inductive RunResult where
  | usageExit
  | fatal (msg : String)
  | aborted (culprit : String)
  | finished (report : String) (exitCode : Nat)
deriving DecidableEq

/-- Observable outcome of a run: terminal result, trace of platform
calls issued, and lines written to the error stream. -/
structure RunOutcome where
  result : RunResult
  trace : List Ev
  errLines : List String
deriving DecidableEq

/-- wmain of chronos.cpp (lines 165-280) over the scripted platform.
argv0 is the invocation name (argv[0]); args are the remaining argument
tokens.  Each failing platform call truncates the trace at the point the
source stops issuing calls. -/
def wmain (argv0 : WStr) (args : List WStr) (p : Platform) : RunOutcome :=
  match ParseArgv args with
  | .err e => ⟨.usageExit, [], parseErrLines e ++ [usageText argv0]⟩
  | .ok params =>
    if p.launchOk = false then
      ⟨.fatal ("Unable to start the process: " ++ p.lastError),
        [.launch],
        ["Unable to start the process: " ++ p.lastError]⟩
    else if p.jobCreateOk = false then
      ⟨.aborted "CreateJobObject",
        [.launch, .createJob],
        ["Assertion failed: CreateJobObject"]⟩
    else if p.assignOk = false then
      ⟨.aborted "AssignProcessToJobObject",
        [.launch, .createJob, .attach],
        ["Assertion failed: AssignProcessToJobObject"]⟩
    else if p.waitOk = false then
      ⟨.fatal ("Failed waiting for process termination: " ++ p.lastError),
        [.launch, .createJob, .attach, .resume, .wait],
        ["Failed waiting for process termination: " ++ p.lastError]⟩
    else if p.exitCodeOk = false then
      ⟨.aborted "GetExitCodeProcess",
        [.launch, .createJob, .attach, .resume, .wait, .getExit],
        ["Assertion failed: GetExitCodeProcess"]⟩
    else if p.timesOk = false then
      ⟨.aborted "GetProcessTimes",
        [.launch, .createJob, .attach, .resume, .wait, .getExit, .getTimes],
        ["Assertion failed: GetProcessTimes"]⟩
    else if p.queryOk = false then
      ⟨.aborted "QueryInformationJobObject",
        [.launch, .createJob, .attach, .resume, .wait, .getExit, .getTimes,
          .query],
        ["Assertion failed: QueryInformationJobObject"]⟩
    else
      ⟨.finished
          (reportOutput params.verbose params.cmdLine
            ((p.exitTime : Int) - (p.createTime : Int))
            p.userTime p.kernelTime p.pageFaults p.exitCode)
          p.exitCode,
        [.launch, .createJob, .attach, .resume, .wait, .getExit, .getTimes,
          .query],
        if p.activeProcesses ≠ 0 then [warningLine p.activeProcesses] else []⟩

/-- Reinterpretation of a 32-bit unsigned value as a signed 32-bit
integer, the conversion the final return statement of wmain performs on
the DWORD exit code. -/
def toSigned32 (n : Nat) : Int :=
  if n % 2 ^ 32 < 2 ^ 31 then ((n % 2 ^ 32 : Nat) : Int)
  else ((n % 2 ^ 32 : Nat) : Int) - 2 ^ 32

/-- Exit status of the chronos process itself for each terminal result;
none when the run aborted through a failed assert (the C runtime kills
the process with no exit statement of the program reached). -/
def toolExit : RunResult → Option Int
  | .usageExit => some 1
  | .fatal _ => some 127
  | .aborted _ => none
  | .finished _ ec => some (toSigned32 ec)

/-- The report written to the chosen destination, when one is. -/
def reportOf : RunResult → Option String
  | .finished rep _ => some rep
  | _ => none

/-- A platform record where every call succeeds; the backend of the
worked example of the specification: exit status 42, wall clock 3.00 s,
user 1.00 s, kernel 0.50 s. -/
def okPlatform : Platform :=
  { launchOk := true, lastError := "", jobCreateOk := true,
    assignOk := true, waitOk := true, exitCodeOk := true, exitCode := 42,
    timesOk := true, createTime := 1000, exitTime := 1000 + 30000000,
    queryOk := true, userTime := 10000000, kernelTime := 5000000,
    pageFaults := 7, activeProcesses := 0 }

/-- A platform record whose process launch fails. -/
def launchFailPlatform : Platform :=
  { okPlatform with launchOk := false, lastError := "Access is denied." }

/-- A platform record where waiting for the process fails. -/
def waitFailPlatform : Platform :=
  { okPlatform with waitOk := false, lastError := "Invalid handle." }

/-- A platform record where retrieving the exit code fails. -/
def exitFailPlatform : Platform :=
  { okPlatform with exitCodeOk := false, lastError := "Invalid handle." }

/-- A platform record where retrieving the process times fails. -/
def timesFailPlatform : Platform :=
  { okPlatform with timesOk := false, lastError := "Invalid handle." }

/-- A platform record where the job accounting query fails. -/
def queryFailPlatform : Platform :=
  { okPlatform with queryOk := false, lastError := "Invalid handle." }

/-- A platform record reporting two still active children. -/
def busyPlatform : Platform :=
  { okPlatform with activeProcesses := 2 }

/-- A platform record whose process dies with a crash status above
2 to the 31st power (the access violation status 0xC0000005). -/
def crashPlatform : Platform :=
  { okPlatform with exitCode := 3221225477 }

/-! ### Helper lemmas about the option-scanning loop -/

/-- The remaining-token list the loop stops at is a suffix of its input. -/
theorem parseLoop_suffix (l : List WStr) :
    ∀ (vb : Bool) (pa : WStr) (c : Bool) (vb2 : Bool) (pa2 : WStr)
      (rest : List WStr),
      parseLoop vb pa c l = .ok vb2 pa2 rest → rest <:+ l := by
  induction l with
  | nil =>
    intro vb pa c vb2 pa2 rest h
    cases c <;>
      · injection h with h1 h2 h3
        subst h3
        exact List.suffix_refl []
  | cons w l ih =>
    intro vb pa c vb2 pa2 rest h
    cases c with
    | true =>
      exact (ih _ _ _ _ _ _ h).trans (List.suffix_cons w l)
    | false =>
      simp only [parseLoop] at h
      split at h
      · injection h with h1 h2 h3
        subst h3
        exact List.suffix_cons w l
      · split at h
        · split at h
          · exact (ih _ _ _ _ _ _ h).trans (List.suffix_cons w l)
          · exact (ih _ _ _ _ _ _ h).trans (List.suffix_cons w l)
        · split at h
          · split at h
            · exact (ih _ _ _ _ _ _ h).trans (List.suffix_cons w l)
            · exact (ih _ _ _ _ _ _ h).trans (List.suffix_cons w l)
          · split at h
            · exact (ih _ _ _ _ _ _ h).trans (List.suffix_cons w l)
            · split at h
              · exact absurd h (by simp)
              · split at h
                · exact absurd h (by simp)
                · injection h with h1 h2 h3
                  subst h3
                  exact List.suffix_refl _

/-- A token that does not begin with a dash matches no option branch:
the loop breaks on it, keeping its state. -/
theorem parseLoop_break (vb : Bool) (pa : WStr) (w : WStr)
    (rest : List WStr) (h : dashLeading w = false) :
    parseLoop vb pa false (w :: rest) = .ok vb pa (w :: rest) := by
  cases w with
  | nil => rfl
  | cons c cs =>
    have hc : ¬ c = '-' := by simpa [dashLeading] using h
    have h1 : ('-' == c) = false := beq_eq_false_iff_ne.mpr (Ne.symm hc)
    simp [parseLoop, ddTok, oTok, outTok, vTok, verbTok, hTok, helpTok,
      dashTok, List.isPrefixOf, h1, hc]

/-- A token made of the short output flag with a nonempty attached value
stores the value as posArg and continues. -/
theorem parseLoop_oTok_attached (vb : Bool) (pa : WStr) (F : WStr)
    (hF : F ≠ []) (tail : List WStr) :
    parseLoop vb pa false ((oTok ++ F) :: tail) = parseLoop vb F false tail := by
  simp [parseLoop, oTok, ddTok, List.isPrefixOf, hF]

/-- A standalone short output flag consumes the following token verbatim
as posArg and continues after it. -/
theorem parseLoop_oTok_detached (vb : Bool) (pa : WStr) (F : WStr)
    (tail : List WStr) :
    parseLoop vb pa false (oTok :: F :: tail) = parseLoop vb F false tail := rfl

/-- A token made of the long output flag with a nonempty attached value
stores the value as posArg and continues. -/
theorem parseLoop_outTok_attached (vb : Bool) (pa : WStr) (F : WStr)
    (hF : F ≠ []) (tail : List WStr) :
    parseLoop vb pa false ((outTok ++ F) :: tail) =
      parseLoop vb F false tail := by
  simp [parseLoop, outTok, oTok, ddTok, List.isPrefixOf, hF]

/-- A standalone long output flag consumes the following token verbatim
as posArg and continues after it. -/
theorem parseLoop_outTok_detached (vb : Bool) (pa : WStr) (F : WStr)
    (tail : List WStr) :
    parseLoop vb pa false (outTok :: F :: tail) = parseLoop vb F false tail := rfl

/-! ### Claim theorems about the parser -/

/-- C4: whenever parsing succeeds, the resulting cmdLine is the
space-joined concatenation of a nonempty suffix of the argument vector
(the recognized program-name token and every remaining token after it,
in original order, nothing dropped, reordered or altered); moreover any
vector whose first token is not option-like parses successfully with
cmdLine the verbatim join of the entire vector, leading dashes in later
tokens included. -/
theorem c4_cmdline_join :
    (∀ (args : List WStr) (r : CliParams), ParseArgv args = .ok r →
      ∃ k, args.drop k ≠ [] ∧ r.cmdLine = joinSp (args.drop k)) ∧
    (∀ (prog : WStr) (rest : List WStr), dashLeading prog = false →
      ParseArgv (prog :: rest) = .ok ⟨false, [], joinSp (prog :: rest)⟩) := by
  constructor
  · intro args r h
    unfold ParseArgv at h
    split at h
    · exact absurd h (by simp)
    next vb pa rest hl =>
      split at h
      · exact absurd h (by simp)
      · split at h
        · exact absurd h (by simp)
        next hre =>
          obtain ⟨t, ht⟩ := parseLoop_suffix args _ _ _ _ _ _ hl
          refine ⟨t.length, ?_, ?_⟩
          · rw [← ht, List.drop_left]; exact hre
          · rw [← ht, List.drop_left]
            injection h with h2
            rw [← h2]
  · intro prog rest hp
    unfold ParseArgv
    rw [parseLoop_break false [] prog rest hp]
    simp [ddTok]

/-- C4 witness: a concrete successful parse together with the suffix
property at a concrete input. -/
theorem c4_cmdline_join_witness :
    ParseArgv [wstr "prog", wstr "-x"] =
      .ok ⟨false, [], joinSp [wstr "prog", wstr "-x"]⟩ ∧
    (∃ k, ([wstr "-v", wstr "p", wstr "q"].drop k ≠ [] ∧
      (⟨true, [], wstr "p q"⟩ : CliParams).cmdLine =
        joinSp ([wstr "-v", wstr "p", wstr "q"].drop k)) ) :=
  ⟨c4_cmdline_join.2 (wstr "prog") [wstr "-x"] (by decide),
   c4_cmdline_join.1 [wstr "-v", wstr "p", wstr "q"]
     ⟨true, [], wstr "p q"⟩ (by decide)⟩

/-- C5 counterexample: for FILE equal to the literal separator token the
four spellings do not produce outputPath FILE (they all fail), and for
the empty FILE the attached and the detached spellings do not even parse
to the same result.  The claim quantified over every file-name string is
therefore false. -/
theorem c5_output_spellings_counterexample :
    ParseArgv [wstr "-o--", wstr "p"] = .err .missingPositional ∧
    ParseArgv [wstr "-o", wstr "--", wstr "p"] = .err .missingPositional ∧
    ParseArgv [wstr "--output--", wstr "p"] = .err .missingPositional ∧
    ParseArgv [wstr "--output", wstr "--", wstr "p"] = .err .missingPositional ∧
    ParseArgv [wstr "-o", wstr "p"] ≠ ParseArgv [wstr "-o", wstr "", wstr "p"] := by
  decide

/-- C5 amended: for every nonempty FILE different from the literal
separator token, the four spellings -oFILE, -o FILE, --outputFILE and
--output FILE parse to the same result whatever follows them, and with a
program token following, they succeed with outputPath equal to FILE. -/
theorem c5_output_spellings (F : WStr) (hne : F ≠ []) (hdd : F ≠ ddTok) :
    (∀ tail : List WStr,
      ParseArgv ((oTok ++ F) :: tail) = ParseArgv (oTok :: F :: tail) ∧
      ParseArgv ((outTok ++ F) :: tail) = ParseArgv (oTok :: F :: tail) ∧
      ParseArgv (outTok :: F :: tail) = ParseArgv (oTok :: F :: tail)) ∧
    (∀ (prog : WStr) (rest : List WStr), dashLeading prog = false →
      ParseArgv (oTok :: F :: prog :: rest) =
        .ok ⟨false, F, joinSp (prog :: rest)⟩) := by
  constructor
  · intro tail
    refine ⟨?_, ?_, ?_⟩ <;> unfold ParseArgv
    · rw [parseLoop_oTok_attached false [] F hne tail,
        parseLoop_oTok_detached false [] F tail]
    · rw [parseLoop_outTok_attached false [] F hne tail,
        parseLoop_oTok_detached false [] F tail]
    · rw [parseLoop_outTok_detached false [] F tail,
        parseLoop_oTok_detached false [] F tail]
  · intro prog rest hp
    unfold ParseArgv
    rw [parseLoop_oTok_detached false [] F (prog :: rest),
      parseLoop_break false F prog rest hp]
    simp [hdd]

/-- C5 witness: the amended equivalence evaluated at a concrete file
name and a concrete trailing program token. -/
theorem c5_output_spellings_witness :
    ParseArgv ((oTok ++ wstr "out.txt") :: [wstr "p"]) =
      ParseArgv (oTok :: wstr "out.txt" :: [wstr "p"]) ∧
    ParseArgv (oTok :: wstr "out.txt" :: wstr "p" :: []) =
      .ok ⟨false, wstr "out.txt", joinSp [wstr "p"]⟩ :=
  ⟨((c5_output_spellings (wstr "out.txt") (by decide) (by decide)).1
      [wstr "p"]).1,
   (c5_output_spellings (wstr "out.txt") (by decide) (by decide)).2
      (wstr "p") [] (by decide)⟩

/-- C6: whenever the option-scanning loop finishes with the consumed
output-path value literally equal to the separator token, ParseArgv
fails with the missing-positional-argument condition and produces no
CliParams. -/
theorem c6_dashdash_value (args : List WStr) (vb : Bool)
    (rest : List WStr)
    (h : parseLoop false [] false args = .ok vb ddTok rest) :
    ParseArgv args = .err .missingPositional := by
  unfold ParseArgv
  rw [h]
  simp

/-- C6 witness: the vector -o -- prog reaches the loop end with posArg
equal to the separator and parsing indeed fails. -/
theorem c6_dashdash_value_witness :
    ParseArgv [wstr "-o", wstr "--", wstr "p"] = .err .missingPositional :=
  c6_dashdash_value [wstr "-o", wstr "--", wstr "p"] false [wstr "p"]
    (by decide)

/-- C9: a standalone -o or --output consumes the immediately following
token verbatim as the output path even when it begins with a dash (so
-o -v prog yields outputPath -v with verbose still false), except that a
consumed literal separator token makes parsing fail. -/
theorem c9_dash_value_consumed :
    (∀ (t prog : WStr) (rest : List WStr), t ≠ ddTok →
      dashLeading prog = false →
      ParseArgv (oTok :: t :: prog :: rest) =
        .ok ⟨false, t, joinSp (prog :: rest)⟩ ∧
      ParseArgv (outTok :: t :: prog :: rest) =
        .ok ⟨false, t, joinSp (prog :: rest)⟩) ∧
    ParseArgv [oTok, vTok, wstr "prog"] = .ok ⟨false, vTok, wstr "prog"⟩ ∧
    (∀ (prog : WStr) (rest : List WStr), dashLeading prog = false →
      ParseArgv (oTok :: ddTok :: prog :: rest) = .err .missingPositional) := by
  refine ⟨?_, by decide, ?_⟩
  · intro t prog rest ht hp
    constructor <;> unfold ParseArgv
    · rw [parseLoop_oTok_detached false [] t (prog :: rest),
        parseLoop_break false t prog rest hp]
      simp [ht]
    · rw [parseLoop_outTok_detached false [] t (prog :: rest),
        parseLoop_break false t prog rest hp]
      simp [ht]
  · intro prog rest hp
    unfold ParseArgv
    rw [parseLoop_oTok_detached false [] ddTok (prog :: rest),
      parseLoop_break false ddTok prog rest hp]
    simp

/-- C9 witness: concrete instances of verbatim dash-value consumption
and of the separator exception. -/
theorem c9_dash_value_consumed_witness :
    ParseArgv (oTok :: wstr "-v" :: wstr "prog" :: []) =
      .ok ⟨false, wstr "-v", joinSp [wstr "prog"]⟩ ∧
    ParseArgv (oTok :: ddTok :: wstr "prog" :: []) = .err .missingPositional :=
  ⟨((c9_dash_value_consumed.1 (wstr "-v") (wstr "prog") [] (by decide)
      (by decide))).1,
   c9_dash_value_consumed.2.2 (wstr "prog") [] (by decide)⟩

/-! ### Helper lemmas about decimal rendering -/

/-- Digit characters of digit values are digit characters. -/
theorem digitChar_isDigit : ∀ d, d < 10 → (digitChar d).isDigit = true := by
  decide

/-- Decimal rendering only produces digit characters. -/
theorem toDecimalAux_digits (fuel : Nat) :
    ∀ (n : Nat) (acc : List Char), acc.all Char.isDigit = true →
      (toDecimalAux fuel n acc).all Char.isDigit = true := by
  induction fuel with
  | zero =>
    intro n acc h
    simpa [toDecimalAux] using h
  | succ f ih =>
    intro n acc h
    by_cases hn : n < 10
    · simp [toDecimalAux, hn, h, digitChar_isDigit n hn]
    · simp only [toDecimalAux, if_neg hn]
      refine ih (n / 10) _ ?_
      simp [h, digitChar_isDigit (n % 10) (Nat.mod_lt _ (by decide))]

/-- The rendering of a nonnegative integer is all digit characters. -/
theorem natStr_digits (n : Nat) :
    (natStr n).toList.all Char.isDigit = true :=
  toDecimalAux_digits (n + 1) n [] rfl

/-- The two-digit zero-padded fraction really has length two. -/
theorem pad2_length_two : ∀ m, m < 100 → (pad2 m).length = 2 := by decide

/-- The two-digit zero-padded fraction is all digit characters. -/
theorem pad2_digits : ∀ m, m < 100 →
    (pad2 m).toList.all Char.isDigit = true := by decide

/-- A digit character is not a newline. -/
theorem isDigit_ne_newline (c : Char) (h : c.isDigit = true) :
    (c != '\n') = true := by
  rcases eq_or_ne c '\n' with rfl | hne
  · exact absurd h (by decide)
  · simpa using hne

/-- A list of digit characters contains no newline. -/
theorem all_digit_no_newline (l : List Char)
    (h : l.all Char.isDigit = true) :
    l.all (fun c => c != '\n') = true := by
  induction l with
  | nil => rfl
  | cons c cs ih =>
    simp only [List.all_cons, Bool.and_eq_true] at h ⊢
    exact ⟨isDigit_ne_newline c h.1, ih h.2⟩

/-- The fixed-point rendering of a tick count contains no newline, so
each report line stays a single line. -/
theorem fixed2_no_newline (n : Nat) :
    (fixed2 n).toList.all (fun c => c != '\n') = true := by
  have h1 := all_digit_no_newline _ (natStr_digits (centisOfTicks n / 100))
  have h2 := all_digit_no_newline _
    (pad2_digits (centisOfTicks n % 100) (Nat.mod_lt _ (by decide)))
  show ((natStr (centisOfTicks n / 100) ++ "." ++
      pad2 (centisOfTicks n % 100)).data.all (fun c => c != '\n')) = true
  rw [String.data_append, String.data_append, List.all_append,
    List.all_append]
  simp only [Bool.and_eq_true]
  exact ⟨⟨h1, by decide⟩, h2⟩

/-! ### Claim theorems about the reporter and wmain -/

/-- C1 counterexample: with the worked backend of the specification
(3.00 s wall clock, 1.00 s user, 0.50 s kernel, exit status 42) the
terse report written to the destination is NOT exactly the three lines
real, user, sys: an empty line precedes them (the bare endl of line 260
of the source). -/
theorem c1_terse_counterexample :
    (wmain (wstr "chronos") [wstr "prog"] okPlatform).result =
      .finished "\nreal\t3.00s\nuser\t1.00s\nsys\t0.50s\n" 42 ∧
    "\nreal\t3.00s\nuser\t1.00s\nsys\t0.50s\n" ≠
      "real\t3.00s\nuser\t1.00s\nsys\t0.50s" := by
  decide

/-- C1 amended: in terse mode the report written to the destination is a
leading empty line followed by exactly the three lines real, user, sys,
each a label and a value separated by a tab, each value rendered in
fixed-point with exactly two digit characters after the decimal point
and containing no newline of its own; for the worked 3.00/1.00/0.50
backend the report is the claimed three lines with the extra leading
empty line. -/
theorem c1_terse_report_shape :
    (∀ (cl : WStr) (w : Int) (u k pf ec : Nat),
      reportOutput false cl w u k pf ec =
        "\n" ++ ("real\t" ++ fixed2i w ++ "s\n" ++
          "user\t" ++ fixed2 u ++ "s\n" ++
          "sys\t" ++ fixed2 k ++ "s\n")) ∧
    (∀ n : Nat, ∃ pre : String,
      fixed2 n = pre ++ "." ++ pad2 (centisOfTicks n % 100) ∧
      pre.toList.all Char.isDigit = true ∧
      (pad2 (centisOfTicks n % 100)).length = 2 ∧
      (pad2 (centisOfTicks n % 100)).toList.all Char.isDigit = true) ∧
    (∀ n : Nat, (fixed2 n).toList.all (fun c => c != '\n') = true) ∧
    reportOutput false [] 30000000 10000000 5000000 0 42 =
      "\nreal\t3.00s\nuser\t1.00s\nsys\t0.50s\n" := by
  refine ⟨fun cl w u k pf ec => rfl, fun n => ?_, fixed2_no_newline, by decide⟩
  exact ⟨natStr (centisOfTicks n / 100), rfl, natStr_digits _,
    pad2_length_two _ (Nat.mod_lt _ (by decide)),
    pad2_digits _ (Nat.mod_lt _ (by decide))⟩

/-- C2: the tool exit status is the launched program exit status (as the
signed reinterpretation, which is the identity below 2 to the 31st) when
launch, wait and metrics collection all succeed; 127 when the process
could not be launched or waited for; and 1 on parse failure, after the
usage text went to the error stream as the last line written there. -/
theorem c2_exit_codes :
    (∀ (argv0 : WStr) (args : List WStr) (p : Platform) (e : ParseErr),
      ParseArgv args = .err e →
        (wmain argv0 args p).result = .usageExit ∧
        toolExit (wmain argv0 args p).result = some 1 ∧
        (wmain argv0 args p).errLines.getLast? = some (usageText argv0)) ∧
    (∀ (argv0 : WStr) (args : List WStr) (p : Platform) (ps : CliParams),
      ParseArgv args = .ok ps → p.launchOk = false →
        toolExit (wmain argv0 args p).result = some 127) ∧
    (∀ (argv0 : WStr) (args : List WStr) (p : Platform) (ps : CliParams),
      ParseArgv args = .ok ps → p.launchOk = true → p.jobCreateOk = true →
      p.assignOk = true → p.waitOk = false →
        toolExit (wmain argv0 args p).result = some 127) ∧
    (∀ (argv0 : WStr) (args : List WStr) (p : Platform) (ps : CliParams),
      ParseArgv args = .ok ps → p.launchOk = true → p.jobCreateOk = true →
      p.assignOk = true → p.waitOk = true → p.exitCodeOk = true →
      p.timesOk = true → p.queryOk = true →
        toolExit (wmain argv0 args p).result = some (toSigned32 p.exitCode) ∧
        (p.exitCode < 2 ^ 31 → toSigned32 p.exitCode = (p.exitCode : Int))) := by
  refine ⟨?_, ?_, ?_, ?_⟩
  · intro argv0 args p e hp
    unfold wmain
    rw [hp]
    refine ⟨rfl, rfl, ?_⟩
    simp [List.getLast?_concat]
  · intro argv0 args p ps hp h1
    unfold wmain
    rw [hp]
    simp [h1, toolExit]
  · intro argv0 args p ps hp h1 h2 h3 h4
    unfold wmain
    rw [hp]
    simp [h1, h2, h3, h4, toolExit]
  · intro argv0 args p ps hp h1 h2 h3 h4 h5 h6 h7
    unfold wmain
    rw [hp]
    refine ⟨by simp [h1, h2, h3, h4, h5, h6, h7, toolExit], fun hlt => ?_⟩
    unfold toSigned32
    have hlt32 : p.exitCode < 2 ^ 32 :=
      lt_trans hlt (by norm_num)
    rw [Nat.mod_eq_of_lt hlt32, if_pos hlt]

/-- C2 witness: each exit-code rule evaluated at a concrete run. -/
theorem c2_exit_codes_witness :
    toolExit (wmain (wstr "chronos") [wstr "-h"] okPlatform).result = some 1 ∧
    toolExit (wmain (wstr "chronos") [wstr "prog"] launchFailPlatform).result =
      some 127 ∧
    toolExit (wmain (wstr "chronos") [wstr "prog"] waitFailPlatform).result =
      some 127 ∧
    toolExit (wmain (wstr "chronos") [wstr "prog"] okPlatform).result =
      some 42 := by
  refine ⟨?_, ?_, ?_, ?_⟩
  · exact (c2_exit_codes.1 (wstr "chronos") [wstr "-h"] okPlatform
      .helpAsked (by decide)).2.1
  · exact c2_exit_codes.2.1 (wstr "chronos") [wstr "prog"] launchFailPlatform
      ⟨false, [], wstr "prog"⟩ (by decide) rfl
  · exact c2_exit_codes.2.2.1 (wstr "chronos") [wstr "prog"] waitFailPlatform
      ⟨false, [], wstr "prog"⟩ (by decide) rfl rfl rfl rfl
  · have h := (c2_exit_codes.2.2.2 (wstr "chronos") [wstr "prog"] okPlatform
      ⟨false, [], wstr "prog"⟩ (by decide) rfl rfl rfl rfl rfl rfl rfl).1
    exact h.trans (by decide)

/-- C3 counterexample: when retrieving the exit status fails, the run
dies through a failed assert: the tool does not exit with status 127, no
platform error description is written, and no report is produced — so
the claim that ExitCodeUnavailable is surfaced like the other fatal
errors with exit status 127 is false on the code. -/
theorem c3_assert_counterexample :
    (wmain (wstr "chronos") [wstr "prog"] exitFailPlatform).result =
      .aborted "GetExitCodeProcess" ∧
    toolExit (wmain (wstr "chronos") [wstr "prog"] exitFailPlatform).result ≠
      some 127 ∧
    (wmain (wstr "chronos") [wstr "prog"] exitFailPlatform).errLines =
      ["Assertion failed: GetExitCodeProcess"] ∧
    reportOf (wmain (wstr "chronos") [wstr "prog"] exitFailPlatform).result =
      none := by
  decide

/-- C3 amended: launch and wait failures write the platform error
description to the error stream and exit with 127; failures to retrieve
the exit status, the timestamps or the group accounting are guarded only
by assertions, which abort the run with neither a 127 exit nor a
platform error description; in every one of these fatal cases no report
at all is written. -/
theorem c3_fatal_failures (argv0 : WStr) (args : List WStr) (p : Platform)
    (ps : CliParams) (hp : ParseArgv args = .ok ps) :
    (p.launchOk = false →
      (wmain argv0 args p).result =
        .fatal ("Unable to start the process: " ++ p.lastError) ∧
      toolExit (wmain argv0 args p).result = some 127 ∧
      (wmain argv0 args p).errLines =
        ["Unable to start the process: " ++ p.lastError] ∧
      reportOf (wmain argv0 args p).result = none) ∧
    (p.launchOk = true → p.jobCreateOk = true → p.assignOk = true →
      p.waitOk = false →
      (wmain argv0 args p).result =
        .fatal ("Failed waiting for process termination: " ++ p.lastError) ∧
      toolExit (wmain argv0 args p).result = some 127 ∧
      (wmain argv0 args p).errLines =
        ["Failed waiting for process termination: " ++ p.lastError] ∧
      reportOf (wmain argv0 args p).result = none) ∧
    (p.launchOk = true → p.jobCreateOk = true → p.assignOk = true →
      p.waitOk = true → p.exitCodeOk = false →
      (wmain argv0 args p).result = .aborted "GetExitCodeProcess" ∧
      toolExit (wmain argv0 args p).result = none ∧
      reportOf (wmain argv0 args p).result = none) ∧
    (p.launchOk = true → p.jobCreateOk = true → p.assignOk = true →
      p.waitOk = true → p.exitCodeOk = true → p.timesOk = false →
      (wmain argv0 args p).result = .aborted "GetProcessTimes" ∧
      toolExit (wmain argv0 args p).result = none ∧
      reportOf (wmain argv0 args p).result = none) ∧
    (p.launchOk = true → p.jobCreateOk = true → p.assignOk = true →
      p.waitOk = true → p.exitCodeOk = true → p.timesOk = true →
      p.queryOk = false →
      (wmain argv0 args p).result = .aborted "QueryInformationJobObject" ∧
      toolExit (wmain argv0 args p).result = none ∧
      reportOf (wmain argv0 args p).result = none) := by
  refine ⟨?_, ?_, ?_, ?_, ?_⟩
  · intro h1
    unfold wmain
    rw [hp]
    simp [h1, toolExit, reportOf]
  · intro h1 h2 h3 h4
    unfold wmain
    rw [hp]
    simp [h1, h2, h3, h4, toolExit, reportOf]
  · intro h1 h2 h3 h4 h5
    unfold wmain
    rw [hp]
    simp [h1, h2, h3, h4, h5, toolExit, reportOf]
  · intro h1 h2 h3 h4 h5 h6
    unfold wmain
    rw [hp]
    simp [h1, h2, h3, h4, h5, h6, toolExit, reportOf]
  · intro h1 h2 h3 h4 h5 h6 h7
    unfold wmain
    rw [hp]
    simp [h1, h2, h3, h4, h5, h6, h7, toolExit, reportOf]

/-- C3 witness: the amended behavior evaluated at concrete failing
platforms. -/
theorem c3_fatal_failures_witness :
    toolExit (wmain (wstr "chronos") [wstr "prog"] launchFailPlatform).result =
      some 127 ∧
    toolExit (wmain (wstr "chronos") [wstr "prog"] timesFailPlatform).result =
      none ∧
    reportOf (wmain (wstr "chronos") [wstr "prog"] queryFailPlatform).result =
      none := by
  refine ⟨?_, ?_, ?_⟩
  · exact ((c3_fatal_failures (wstr "chronos") [wstr "prog"]
      launchFailPlatform ⟨false, [], wstr "prog"⟩ (by decide)).1 rfl).2.1
  · exact ((c3_fatal_failures (wstr "chronos") [wstr "prog"]
      timesFailPlatform ⟨false, [], wstr "prog"⟩ (by decide)).2.2.2.1
      rfl rfl rfl rfl rfl rfl).2.1
  · exact ((c3_fatal_failures (wstr "chronos") [wstr "prog"]
      queryFailPlatform ⟨false, [], wstr "prog"⟩ (by decide)).2.2.2.2
      rfl rfl rfl rfl rfl rfl rfl).2.2

/-- In a trace whose first four calls are launch, job creation, attach,
resume, every occurrence of resume has an attach strictly before it. -/
theorem resume_preceded_by_attach (tail : List Ev) (i : Nat)
    (hi : (([.launch, .createJob, .attach, .resume] ++ tail) :
      List Ev)[i]? = some Ev.resume) :
    ∃ j, j < i ∧
      (([.launch, .createJob, .attach, .resume] ++ tail) :
        List Ev)[j]? = some Ev.attach := by
  match i with
  | 0 => exact absurd hi (by simp)
  | 1 => exact absurd hi (by simp)
  | 2 => exact absurd hi (by simp)
  | n + 3 => exact ⟨2, by omega, by simp⟩

/-- C7: in every run, any resume call in the platform-call trace is
strictly preceded by an attach call: the primary process is attached to
the tracking group before its suspension is released. -/
theorem c7_attach_before_resume (argv0 : WStr) (args : List WStr)
    (p : Platform) (i : Nat)
    (hi : (wmain argv0 args p).trace[i]? = some Ev.resume) :
    ∃ j, j < i ∧ (wmain argv0 args p).trace[j]? = some Ev.attach := by
  have htr : (wmain argv0 args p).trace = [] ∨
      (wmain argv0 args p).trace = [.launch] ∨
      (wmain argv0 args p).trace = [.launch, .createJob] ∨
      (wmain argv0 args p).trace = [.launch, .createJob, .attach] ∨
      ∃ tail, (wmain argv0 args p).trace =
        [.launch, .createJob, .attach, .resume] ++ tail := by
    unfold wmain
    cases hp : ParseArgv args with
    | err e => simp
    | ok ps =>
      by_cases h1 : p.launchOk = false
      · simp [h1]
      · by_cases h2 : p.jobCreateOk = false
        · simp [h1, h2]
        · by_cases h3 : p.assignOk = false
          · simp [h1, h2, h3]
          · by_cases h4 : p.waitOk = false
            · refine Or.inr (Or.inr (Or.inr (Or.inr ⟨[.wait], ?_⟩)))
              simp [h1, h2, h3, h4]
            · by_cases h5 : p.exitCodeOk = false
              · refine Or.inr (Or.inr (Or.inr (Or.inr
                  ⟨[.wait, .getExit], ?_⟩)))
                simp [h1, h2, h3, h4, h5]
              · by_cases h6 : p.timesOk = false
                · refine Or.inr (Or.inr (Or.inr (Or.inr
                    ⟨[.wait, .getExit, .getTimes], ?_⟩)))
                  simp [h1, h2, h3, h4, h5, h6]
                · by_cases h7 : p.queryOk = false
                  · refine Or.inr (Or.inr (Or.inr (Or.inr
                      ⟨[.wait, .getExit, .getTimes, .query], ?_⟩)))
                    simp [h1, h2, h3, h4, h5, h6, h7]
                  · refine Or.inr (Or.inr (Or.inr (Or.inr
                      ⟨[.wait, .getExit, .getTimes, .query], ?_⟩)))
                    simp [h1, h2, h3, h4, h5, h6, h7]
  rcases htr with h | h | h | h | ⟨tail, h⟩
  · rw [h] at hi
    exact absurd hi (by simp)
  · rw [h] at hi
    have hm := List.getElem?_mem hi
    simp at hm
  · rw [h] at hi
    have hm := List.getElem?_mem hi
    simp at hm
  · rw [h] at hi
    have hm := List.getElem?_mem hi
    simp at hm
  · rw [h] at hi ⊢
    exact resume_preceded_by_attach tail i hi

/-- C7 witness: in the all-success run the resume call sits at index 3
of the trace and an attach call indeed precedes it. -/
theorem c7_attach_before_resume_witness :
    ∃ j, j < 3 ∧
      (wmain (wstr "chronos") [wstr "prog"] okPlatform).trace[j]? =
        some Ev.attach :=
  c7_attach_before_resume (wstr "chronos") [wstr "prog"] okPlatform 3
    (by decide)

/-- C8: a nonzero still-active count after the primary process exits
makes the tool print exactly the warning line naming that count to the
error stream, while the complete report is still written and the tool
still finishes with the exit code of the primary process. -/
theorem c8_warning_nonfatal (argv0 : WStr) (args : List WStr)
    (p : Platform) (ps : CliParams) (hp : ParseArgv args = .ok ps)
    (h1 : p.launchOk = true) (h2 : p.jobCreateOk = true)
    (h3 : p.assignOk = true) (h4 : p.waitOk = true)
    (h5 : p.exitCodeOk = true) (h6 : p.timesOk = true)
    (h7 : p.queryOk = true) (hap : p.activeProcesses ≠ 0) :
    (wmain argv0 args p).errLines = [warningLine p.activeProcesses] ∧
    (wmain argv0 args p).result =
      .finished (reportOutput ps.verbose ps.cmdLine
        ((p.exitTime : Int) - (p.createTime : Int)) p.userTime p.kernelTime
        p.pageFaults p.exitCode) p.exitCode ∧
    toolExit (wmain argv0 args p).result = some (toSigned32 p.exitCode) := by
  unfold wmain
  rw [hp]
  simp [h1, h2, h3, h4, h5, h6, h7, hap, toolExit]

/-- C8 witness: with two surviving children the warning names the count
two, the full terse report is still produced and the exit code is the
42 of the primary process. -/
theorem c8_warning_nonfatal_witness :
    (wmain (wstr "chronos") [wstr "prog"] busyPlatform).errLines =
      [warningLine 2] ∧
    (wmain (wstr "chronos") [wstr "prog"] busyPlatform).result =
      .finished (reportOutput false (wstr "prog") 30000000 10000000
        5000000 7 42) 42 ∧
    toolExit (wmain (wstr "chronos") [wstr "prog"] busyPlatform).result =
      some (toSigned32 42) :=
  c8_warning_nonfatal (wstr "chronos") [wstr "prog"] busyPlatform
    ⟨false, [], wstr "prog"⟩ (by decide) rfl rfl rfl rfl rfl rfl rfl
    (by decide)

/-- C10: on a fully successful run the tool return value is the DWORD
exit code of the child reinterpreted as a signed 32-bit integer, so any
status at or above 2 to the 31st (such as the crash status 0xC0000005)
comes out as the corresponding negative number. -/
theorem c10_signed_exit :
    (∀ (argv0 : WStr) (args : List WStr) (p : Platform) (ps : CliParams),
      ParseArgv args = .ok ps → p.launchOk = true → p.jobCreateOk = true →
      p.assignOk = true → p.waitOk = true → p.exitCodeOk = true →
      p.timesOk = true → p.queryOk = true →
        toolExit (wmain argv0 args p).result = some (toSigned32 p.exitCode)) ∧
    (∀ n : Nat, n < 2 ^ 32 → 2 ^ 31 ≤ n →
      toSigned32 n = (n : Int) - 2 ^ 32 ∧ toSigned32 n < 0) ∧
    toSigned32 3221225477 = -1073741819 := by
  refine ⟨?_, ?_, by decide⟩
  · intro argv0 args p ps hp h1 h2 h3 h4 h5 h6 h7
    unfold wmain
    rw [hp]
    simp [h1, h2, h3, h4, h5, h6, h7, toolExit]
  · intro n h32 h31
    unfold toSigned32
    rw [Nat.mod_eq_of_lt h32, if_neg (by omega)]
    constructor
    · rfl
    · have : (n : Int) < 2 ^ 32 := by exact_mod_cast h32
      omega

/-- C10 witness: a child crashing with status 0xC0000005 makes the tool
return the negative value -1073741819. -/
theorem c10_signed_exit_witness :
    toolExit (wmain (wstr "chronos") [wstr "prog"] crashPlatform).result =
      some (-1073741819) := by
  have h := c10_signed_exit.1 (wstr "chronos") [wstr "prog"] crashPlatform
    ⟨false, [], wstr "prog"⟩ (by decide) rfl rfl rfl rfl rfl rfl rfl
  exact h.trans (by decide)

end Chronos
